import Mathlib

/-!
Verification development for the example code in this repository:
the Evals API image-inputs notebook
(`examples/evaluation/use-cases/EvalsAPI_Image_Inputs.ipynb`) and the
assistant-streaming Python snippet
(`examples/data/oai_docs/overview-with-streaming.txt`).

The notebook is shallowly embedded as pure Lean functions: JSON payloads
become values of an inductive `Json` type, the API becomes an oracle record
supplying the ids, statuses and output items the remote service would
return, and the `while True` polling loop becomes a fuel-indexed recursion
that records the trace of calls it performs.
-/

/-- JSON values, as built and consumed by the notebook. Numeric literals in
the notebook payloads (for example `pass_threshold: 0.9`) are represented
exactly as rationals. -/
inductive Json where
  | str : String → Json
  | num : ℚ → Json
  | bool : Bool → Json
  | null : Json
  | arr : List Json → Json
  | obj : List (String × Json) → Json

/-- Dictionary lookup `j[k]` on a JSON object, `none` when `j` is not an
object or the key is absent (a Python `KeyError` / `TypeError`). -/
def jGet (j : Json) (k : String) : Option Json :=
  match j with
  | Json.obj kvs => (kvs.find? (fun kv => kv.1 == k)).map (fun kv => kv.2)
  | _ => none

/-- List indexing `j[n]` on a JSON array, `none` when out of range or not
an array (a Python `IndexError` / `TypeError`). -/
def jIdx (j : Json) (n : Nat) : Option Json :=
  match j with
  | Json.arr xs => xs.get? n
  | _ => none

mutual

/-- Rewrite every string leaf of a JSON value by `f`, leaving object keys
and all structure untouched. Used to express that the notebook checks no
value-level invariant: acceptance never depends on the string contents. -/
def mapJsonVals (f : String → String) : Json → Json
  | Json.str s => Json.str (f s)
  | Json.num q => Json.num q
  | Json.bool b => Json.bool b
  | Json.null => Json.null
  | Json.arr xs => Json.arr (mapJsonList f xs)
  | Json.obj kvs => Json.obj (mapJsonObj f kvs)

/-- `mapJsonVals` pointwise on an array's elements. -/
def mapJsonList (f : String → String) : List Json → List Json
  | [] => []
  | x :: xs => mapJsonVals f x :: mapJsonList f xs

/-- `mapJsonVals` on an object's values; keys are preserved. -/
def mapJsonObj (f : String → String) : List (String × Json) → List (String × Json)
  | [] => []
  | kv :: kvs => (kv.1, mapJsonVals f kv.2) :: mapJsonObj f kvs

end

/-- One row of the VibeEval `test` split, restricted to the three columns
the notebook reads (`example["media_url"]`, `example["reference"]`,
`example["prompt"]`); the dataset's remaining columns are never accessed. -/
structure Example where
  media_url : String
  reference : String
  prompt : String

/-- Cell 7 of the notebook: for the first 3 examples of the `test` split,
append `{"item": {"media_url": ..., "reference": ..., "prompt": ...}}`.
`select(range(3))` requires at least 3 rows and takes the first 3 in split
order, which `List.take 3` models. -/
def evals_data_source (test : List Example) : List Json :=
  (test.take 3).map (fun e =>
    Json.obj [("item", Json.obj
      [("media_url", Json.str e.media_url),
       ("reference", Json.str e.reference),
       ("prompt", Json.str e.prompt)])])

/-- The `item_schema` member of cell 13's `data_source_config`, verbatim. -/
def item_schema : Json :=
  Json.obj
    [("type", Json.str "object"),
     ("properties", Json.obj
       [("media_url", Json.obj [("type", Json.str "string")]),
        ("reference", Json.obj [("type", Json.str "string")]),
        ("prompt", Json.obj [("type", Json.str "string")])]),
     ("required", Json.arr
       [Json.str "media_url", Json.str "reference", Json.str "prompt"])]

/-- Cell 13 of the notebook: the `data_source_config` request payload,
verbatim. -/
def data_source_config : Json :=
  Json.obj
    [("type", Json.str "custom"),
     ("item_schema", item_schema),
     ("include_sample_schema", Json.bool true)]

/-- The keys listed under `"required"` in a JSON schema object. -/
def requiredKeys (schema : Json) : List String :=
  match jGet schema "required" with
  | some (Json.arr xs) =>
    xs.filterMap (fun j => match j with | Json.str s => some s | _ => none)
  | _ => []

/-- Whether a JSON object has the key `k`. -/
def hasKey (j : Json) (k : String) : Bool :=
  (jGet j k).isSome

/-- Whether a JSON value has the primitive JSON-schema type named `t`. -/
def hasJsonType (t : String) (j : Json) : Bool :=
  match t, j with
  | "string", Json.str _ => true
  | "number", Json.num _ => true
  | "boolean", Json.bool _ => true
  | "null", Json.null => true
  | "array", Json.arr _ => true
  | "object", Json.obj _ => true
  | _, _ => false

/-- Whether `j` respects one entry of a schema's `properties` map: when the
property is present, its value has the declared primitive type. -/
def propOk (j : Json) (kv : String × Json) : Bool :=
  match jGet j kv.1 with
  | none => true
  | some v =>
    match jGet kv.2 "type" with
    | some (Json.str t) => hasJsonType t v
    | _ => true

/-- Satisfaction of the JSON-Schema fragment that `item_schema` uses: a
`type` constraint, per-property primitive `type` constraints, and a
`required` key list. This interprets the schema data that the notebook
sends; validation itself is performed server-side. -/
def satisfiesSchema (schema j : Json) : Bool :=
  (match jGet schema "type" with
   | some (Json.str t) => hasJsonType t j
   | _ => true) &&
  (requiredKeys schema).all (hasKey j) &&
  (match jGet schema "properties" with
   | some (Json.obj props) => props.all (propOk j)
   | _ => true)

/-- Cell 17 of the notebook: the `grader_config` request payload, verbatim
(template braces are escaped in the string literals). -/
def grader_config : Json :=
  Json.obj
    [("type", Json.str "score_model"),
     ("name", Json.str "Score Model Grader"),
     ("input", Json.arr
       [Json.obj
         [("role", Json.str "system"),
          ("content", Json.str "You are an expert grader. Judge how well the model response suits the image and prompt as well as matches the meaniing of the reference answer. Output a score of 1 if great. If it\x27s somewhat compatible, output a score around 0.5. Otherwise, give a score of 0.")],
        Json.obj
         [("role", Json.str "user"),
          ("content", Json.arr
            [Json.obj [("type", Json.str "input_text"),
                       ("text", Json.str "Prompt: \x7b\x7b item.prompt \x7d\x7d.")],
             Json.obj [("type", Json.str "input_image"),
                       ("image_url", Json.str "\x7b\x7b item.media_url \x7d\x7d"),
                       ("detail", Json.str "auto")],
             Json.obj [("type", Json.str "input_text"),
                       ("text", Json.str "Reference answer: \x7b\x7b item.reference \x7d\x7d. Model response: \x7b\x7b sample.output_text \x7d\x7d.")]])]]),
     ("pass_threshold", Json.num (9/10)),
     ("range", Json.arr [Json.num 0, Json.num 1]),
     ("model", Json.str "o4-mini")]

/-- Cell 22 of the notebook: the `sampling_messages` template, verbatim. -/
def sampling_messages : Json :=
  Json.arr
    [Json.obj
      [("role", Json.str "user"),
       ("type", Json.str "message"),
       ("content", Json.obj
         [("type", Json.str "input_text"),
          ("text", Json.str "\x7b\x7b item.prompt \x7d\x7d")])],
     Json.obj
      [("role", Json.str "user"),
       ("type", Json.str "message"),
       ("content", Json.obj
         [("type", Json.str "input_image"),
          ("image_url", Json.str "\x7b\x7b item.media_url \x7d\x7d"),
          ("detail", Json.str "auto")])]]

/-- Cell 24 of the notebook: the `data_source` argument of
`client.evals.runs.create`, with `content` the previously compiled
`evals_data_source` list. -/
def run_data_source (content : List Json) : Json :=
  Json.obj
    [("type", Json.str "responses"),
     ("source", Json.obj
       [("type", Json.str "file_content"),
        ("content", Json.arr content)]),
     ("model", Json.str "gpt-4o-mini"),
     ("input_messages", Json.obj
       [("type", Json.str "template"),
        ("template", sampling_messages)])]

/-- One element of a run output item's `sample.output` list; the notebook
reads only its `content` attribute. -/
structure SampleOutput where
  content : String

/-- The `sample` attribute of a run output item; the notebook reads only
its `output` list. -/
structure RunSample where
  output : List SampleOutput

/-- A run output item as returned by `output_items.list`, restricted to the
attributes the notebook accesses: `datasource_item` (a JSON dictionary),
`sample.output`, and `results` (a list of JSON dictionaries). -/
structure OutputItem where
  datasource_item : List (String × Json)
  sample : RunSample
  results : List Json

/-- Dictionary access `item.datasource_item[k]`; `none` models the
`KeyError` raised when the key is absent. -/
def dsGet (ds : List (String × Json)) (k : String) : Option Json :=
  (ds.find? (fun kv => kv.1 == k)).map (fun kv => kv.2)

/-- The access path `r["sample"]["output"][0]["content"]` used for the
`grading_results` column; `none` models the exception raised when any step
is missing. -/
def gradingResult (r : Json) : Option Json :=
  (jGet r "sample").bind (fun s =>
    (jGet s "output").bind (fun o =>
      (jIdx o 0).bind (fun e =>
        jGet e "content")))

/-- One row of the displayed DataFrame: the four columns built in cell 27. -/
structure Row where
  prompt : Json
  reference : Json
  model_response : String
  grading_results : Json

/-- The per-item field accesses of the DataFrame construction in cell 27:
`item.datasource_item["prompt"]`, `item.datasource_item["reference"]`,
`item.sample.output[0].content`, and
`item.results[0]["sample"]["output"][0]["content"]`. `none` models the
exception raised when any access fails. -/
def buildRow (item : OutputItem) : Option Row :=
  (dsGet item.datasource_item "prompt").bind (fun p =>
    (dsGet item.datasource_item "reference").bind (fun r =>
      (item.sample.output.get? 0).bind (fun m =>
        (item.results.get? 0).bind (fun res0 =>
          (gradingResult res0).map (fun g =>
            ⟨p, r, m.content, g⟩)))))

/-- The `pd.DataFrame` construction of cell 27 as a list of rows, one per
output item in list order. pandas builds the four columns as list
comprehensions over `output_items`; the construction succeeds exactly when
every per-item access succeeds, and then row `i` collects the four values
for item `i`, which this row-wise recursion reproduces. -/
def buildDF : List OutputItem → Option (List Row)
  | [] => some []
  | item :: rest =>
    match buildRow item, buildDF rest with
    | some r, some rs => some (r :: rs)
    | _, _ => none

/-- Cell 27's terminal-status test: `run.status == "completed" or
run.status == "failed"`. -/
def isTerminal (s : String) : Bool :=
  s == "completed" || s == "failed"

/-- Observable actions of the notebook, in the order it performs them.
Request payloads and the ids threaded between calls are carried so that the
wiring between cells is visible in the trace. -/
inductive Act where
  | evalsCreate (name : String) (dsc : Json) (criteria : List Json)
  | runsCreate (name : String) (evalId : String) (ds : Json)
  | retrieve (runId : String) (evalId : String)
  | listItems (runId : String) (evalId : String)
  | display (rows : List Row)
  | sleep (secs : Nat)

/-- How the polling cell ends within a given fuel bound: still polling,
terminated by an exception inside the DataFrame construction, or having
displayed the DataFrame. -/
inductive LoopResult where
  | stillRunning
  | raised
  | displayed (rows : List Row)

/-- The body executed when a terminal status is observed: list the output
items, build the DataFrame, display it, break. When the construction
raises, `display` is never reached. -/
def exitActions (runId evalId : String) (items : List OutputItem) : List Act :=
  match buildDF items with
  | some rows => [Act.retrieve runId evalId, Act.listItems runId evalId, Act.display rows]
  | none => [Act.retrieve runId evalId, Act.listItems runId evalId]

/-- The loop outcome when a terminal status is observed. -/
def exitResult (items : List OutputItem) : LoopResult :=
  match buildDF items with
  | some rows => LoopResult.displayed rows
  | none => LoopResult.raised

/-- Cell 27's `while True` loop, observed for `fuel` iterations starting at
the `i`-th retrieve. Each iteration retrieves the run; on a terminal status
it lists output items, builds and displays the DataFrame and breaks;
otherwise it sleeps 5 seconds and loops. `st n` is the status string the
`n`-th retrieve call returns. -/
def pollLoop (runId evalId : String) (st : Nat → String) (items : List OutputItem) :
    Nat → Nat → List Act × LoopResult
  | _, 0 => ([], LoopResult.stillRunning)
  | i, fuel + 1 =>
    if isTerminal (st i) then
      (exitActions runId evalId items, exitResult items)
    else
      let r := pollLoop runId evalId st items (i + 1) fuel
      (Act.retrieve runId evalId :: Act.sleep 5 :: r.1, r.2)

/-- The remote service as an oracle: the id returned by `evals.create`, the
id returned by `runs.create`, the status string returned by each successive
`runs.retrieve`, and the list returned by `output_items.list`. -/
structure Api where
  evalId : String
  runId : String
  statuses : Nat → String
  items : List OutputItem

/-- The notebook's API-call sequence (cells 19, 24, 27): create the eval
with `data_source_config` and `[grader_config]`, create the run passing the
created eval's id and the compiled data source, then poll. -/
def notebook (api : Api) (test : List Example) (fuel : Nat) :
    List Act × LoopResult :=
  let p := pollLoop api.runId api.evalId api.statuses api.items 0 fuel
  (Act.evalsCreate "Image Grading" data_source_config [grader_config] ::
   Act.runsCreate "Image Input Eval Run" api.evalId
     (run_data_source (evals_data_source test)) :: p.1,
   p.2)

/-- The actions of `n` consecutive non-terminal polling iterations: each
retrieves the run and then sleeps 5 seconds. -/
def iterActs (runId evalId : String) (n : Nat) : List Act :=
  (List.replicate n [Act.retrieve runId evalId, Act.sleep 5]).flatten

/-- Rewrite every string value of an output item by `f`: all string leaves
of `datasource_item` and `results`, and every `sample.output` content.
Attribute names and object keys are untouched. -/
def outputItemMapVals (f : String → String) (item : OutputItem) : OutputItem :=
  ⟨mapJsonObj f item.datasource_item,
   ⟨item.sample.output.map (fun o => ⟨f o.content⟩)⟩,
   item.results.map (mapJsonVals f)⟩

/-- The action of a string-value rewrite on a DataFrame row. -/
def rowMapVals (f : String → String) (row : Row) : Row :=
  ⟨mapJsonVals f row.prompt, mapJsonVals f row.reference,
   f row.model_response, mapJsonVals f row.grading_results⟩

/-- One element of `delta.code_interpreter.outputs` in the streaming
snippet; the handler reads its `type` and `logs` attributes. -/
structure CIOutput where
  type : String
  logs : String

/-- The `code_interpreter` attribute of a tool-call delta: `input` is an
optional string, `outputs` an optional list; both are tested with Python
truthiness (absent, empty string and empty list are falsy). -/
structure CodeInterpreter where
  input : Option String
  outputs : Option (List CIOutput)

/-- A tool-call delta as received by `EventHandler.on_tool_call_delta`. -/
structure ToolCallDelta where
  type : String
  code_interpreter : CodeInterpreter

/-- Python truthiness of an optional string: `None` and `""` are falsy. -/
def pyTruthyStr : Option String → Bool
  | none => false
  | some s => !(s == "")

/-- Python truthiness of an optional list: `None` and `[]` are falsy. -/
def pyTruthyList {α : Type} : Option (List α) → Bool
  | none => false
  | some l => !l.isEmpty

/-- The `for output in delta.code_interpreter.outputs` loop of the
streaming snippet: for each output whose `type` equals `"logs"`, one
`print(f"\n\x7boutput.logs\x7d", flush=True)` call. Each element is the full
string that print call writes, including the trailing newline `print`
appends. -/
def printLogsLoop : List CIOutput → List String
  | [] => []
  | o :: rest =>
    (if o.type == "logs" then ["\n" ++ o.logs ++ "\n"] else []) ++ printLogsLoop rest

/-- `EventHandler.on_tool_call_delta` from the Python streaming snippet, as
the list of strings it writes to stdout, one element per executed `print`
call (the `input` print passes `end=""`, the other prints append a
newline). -/
def on_tool_call_delta (delta : ToolCallDelta) : List String :=
  if delta.type == "code_interpreter" then
    (match delta.code_interpreter.input with
     | some s => if s == "" then [] else [s]
     | none => []) ++
    (match delta.code_interpreter.outputs with
     | some outs =>
       if outs.isEmpty then [] else "\n\noutput >\n" :: printLogsLoop outs
     | none => [])
  else []

/-- One more non-terminal iteration in front of an action block. -/
lemma iterActs_succ (runId evalId : String) (n : Nat) :
    iterActs runId evalId (n + 1) =
      Act.retrieve runId evalId :: Act.sleep 5 :: iterActs runId evalId n := by
  simp [iterActs, List.replicate_succ]

/-- Non-terminal iterations contain only retrieve and sleep actions. -/
lemma iterActs_mem (runId evalId : String) (n : Nat) (a : Act)
    (h : a ∈ iterActs runId evalId n) :
    a = Act.retrieve runId evalId ∨ a = Act.sleep 5 := by
  simp only [iterActs, List.mem_flatten] at h
  obtain ⟨l, hl, hal⟩ := h
  rw [List.eq_of_mem_replicate hl] at hal
  simpa using hal

/-- When the first terminal status appears at the `n`-th retrieve counting
from start index `i`, and the fuel covers it, the loop performs exactly `n`
retrieve-and-sleep iterations and then the terminal-exit actions. -/
lemma pollLoop_run (runId evalId : String) (st : Nat → String)
    (items : List OutputItem) :
    ∀ n i fuel, (∀ m, m < n → isTerminal (st (i + m)) = false) →
      isTerminal (st (i + n)) = true → n < fuel →
      pollLoop runId evalId st items i fuel =
        (iterActs runId evalId n ++ exitActions runId evalId items,
         exitResult items) := by
  intro n
  induction n with
  | zero =>
    intro i fuel _ ht hf
    match fuel, hf with
    | fuel + 1, _ =>
      have ht' : isTerminal (st i) = true := by simpa using ht
      simp [pollLoop, ht', iterActs]
  | succ n ih =>
    intro i fuel hnt ht hf
    match fuel, hf with
    | fuel + 1, hf =>
      have h0 : isTerminal (st i) = false := by simpa using hnt 0 (Nat.succ_pos n)
      have hnt' : ∀ m, m < n → isTerminal (st (i + 1 + m)) = false := by
        intro m hm
        have : i + 1 + m = i + (m + 1) := by omega
        rw [this]
        exact hnt (m + 1) (by omega)
      have ht' : isTerminal (st (i + 1 + n)) = true := by
        have : i + 1 + n = i + (n + 1) := by omega
        rw [this]; exact ht
      have := ih (i + 1) fuel hnt' ht' (by omega)
      simp [pollLoop, h0, this, iterActs_succ]

/-- When every status within the fuel bound is non-terminal, the loop is
still running and has performed one retrieve-and-sleep pair per retrieve. -/
lemma pollLoop_all_nonterminal (runId evalId : String) (st : Nat → String)
    (items : List OutputItem) :
    ∀ fuel i, (∀ m, m < fuel → isTerminal (st (i + m)) = false) →
      pollLoop runId evalId st items i fuel =
        (iterActs runId evalId fuel, LoopResult.stillRunning) := by
  intro fuel
  induction fuel with
  | zero => intro i _; simp [pollLoop, iterActs]
  | succ fuel ih =>
    intro i h
    have h0 : isTerminal (st i) = false := by simpa using h 0 (Nat.succ_pos fuel)
    have h' : ∀ m, m < fuel → isTerminal (st (i + 1 + m)) = false := by
      intro m hm
      have : i + 1 + m = i + (m + 1) := by omega
      rw [this]
      exact h (m + 1) (by omega)
    simp [pollLoop, h0, ih (i + 1) h', iterActs_succ]

/-- The loop can have exited only because some retrieved status within the
fuel bound was terminal. -/
lemma pollLoop_exit_terminal (runId evalId : String) (st : Nat → String)
    (items : List OutputItem) :
    ∀ fuel i, (pollLoop runId evalId st items i fuel).2 ≠ LoopResult.stillRunning →
      ∃ m, m < fuel ∧ isTerminal (st (i + m)) = true := by
  intro fuel
  induction fuel with
  | zero => intro i h; simp [pollLoop] at h
  | succ fuel ih =>
    intro i h
    by_cases h0 : isTerminal (st i) = true
    · exact ⟨0, Nat.succ_pos fuel, by simpa using h0⟩
    · have h0' : isTerminal (st i) = false := by simpa using h0
      rw [pollLoop] at h
      simp only [h0', Bool.false_eq_true, if_false] at h
      obtain ⟨m, hm, htm⟩ := ih (i + 1) h
      refine ⟨m + 1, by omega, ?_⟩
      have : i + (m + 1) = i + 1 + m := by omega
      rw [this]; exact htm

/-- A list-output-items call appears in the loop's trace only if some
retrieved status within the fuel bound was terminal. -/
lemma pollLoop_listItems_after_terminal (runId evalId : String)
    (st : Nat → String) (items : List OutputItem) :
    ∀ fuel i runId2 evalId2,
      Act.listItems runId2 evalId2 ∈ (pollLoop runId evalId st items i fuel).1 →
      ∃ m, m < fuel ∧ isTerminal (st (i + m)) = true := by
  intro fuel
  induction fuel with
  | zero => intro i r2 e2 h; simp [pollLoop] at h
  | succ fuel ih =>
    intro i r2 e2 h
    by_cases h0 : isTerminal (st i) = true
    · exact ⟨0, Nat.succ_pos fuel, by simpa using h0⟩
    · have h0' : isTerminal (st i) = false := by simpa using h0
      rw [pollLoop] at h
      simp only [h0', Bool.false_eq_true, if_false, List.mem_cons] at h
      rcases h with h | h | h
      · exact absurd h (by simp)
      · exact absurd h (by simp)
      · obtain ⟨m, hm, htm⟩ := ih (i + 1) r2 e2 h
        refine ⟨m + 1, by omega, ?_⟩
        have : i + (m + 1) = i + 1 + m := by omega
        rw [this]; exact htm

/-- Every sleep the loop ever performs is exactly 5 seconds. -/
lemma pollLoop_sleep_five (runId evalId : String) (st : Nat → String)
    (items : List OutputItem) :
    ∀ fuel i k, Act.sleep k ∈ (pollLoop runId evalId st items i fuel).1 → k = 5 := by
  intro fuel
  induction fuel with
  | zero => intro i k h; simp [pollLoop] at h
  | succ fuel ih =>
    intro i k h
    by_cases h0 : isTerminal (st i) = true
    · rw [pollLoop] at h
      simp only [h0, if_true] at h
      unfold exitActions at h
      cases hb : buildDF items <;> rw [hb] at h <;> simp at h
    · have h0' : isTerminal (st i) = false := by simpa using h0
      rw [pollLoop] at h
      simp only [h0', Bool.false_eq_true, if_false, List.mem_cons] at h
      rcases h with h | h | h
      · exact absurd h (by simp)
      · exact (Act.sleep.inj h)
      · exact ih (i + 1) k h

/-- Two status oracles that agree before `n` and are both terminal at `n`
give the polling loop identical behaviour from any start index at most
`n`. -/
lemma pollLoop_congr (runId evalId : String) (st st2 : Nat → String)
    (items : List OutputItem) (n : Nat)
    (hpre : ∀ m, m < n → st m = st2 m)
    (ht : isTerminal (st n) = true) (ht2 : isTerminal (st2 n) = true) :
    ∀ fuel i, i ≤ n →
      pollLoop runId evalId st items i fuel =
        pollLoop runId evalId st2 items i fuel := by
  intro fuel
  induction fuel with
  | zero => intro i _; rfl
  | succ fuel ih =>
    intro i hi
    by_cases hin : i = n
    · subst hin
      simp [pollLoop, ht, ht2]
    · have hlt : i < n := lt_of_le_of_ne hi hin
      have heq : st i = st2 i := hpre i hlt
      by_cases hT : isTerminal (st i) = true
      · have hT2 : isTerminal (st2 i) = true := by rw [← heq]; exact hT
        simp [pollLoop, hT, hT2]
      · have hT' : isTerminal (st i) = false := by simpa using hT
        have hT2 : isTerminal (st2 i) = false := by rw [← heq]; exact hT'
        simp [pollLoop, hT', hT2, ih (i + 1) (by omega)]

/-- While the first `n` statuses from start index `i` are non-terminal, the
trace begins with exactly those `n` retrieve-and-sleep iterations, whatever
happens afterwards. -/
lemma pollLoop_head_nonterminal (runId evalId : String) (st : Nat → String)
    (items : List OutputItem) :
    ∀ n i fuel, (∀ m, m < n → isTerminal (st (i + m)) = false) → n ≤ fuel →
      ∃ rest, (pollLoop runId evalId st items i fuel).1 =
        iterActs runId evalId n ++ rest := by
  intro n
  induction n with
  | zero =>
    intro i fuel _ _
    exact ⟨(pollLoop runId evalId st items i fuel).1, by simp [iterActs]⟩
  | succ n ih =>
    intro i fuel hnt hf
    match fuel, hf with
    | fuel + 1, hf =>
      have h0 : isTerminal (st i) = false := by simpa using hnt 0 (Nat.succ_pos n)
      have hnt' : ∀ m, m < n → isTerminal (st (i + 1 + m)) = false := by
        intro m hm
        have : i + 1 + m = i + (m + 1) := by omega
        rw [this]
        exact hnt (m + 1) (by omega)
      obtain ⟨rest, hrest⟩ := ih (i + 1) fuel hnt' (by omega)
      refine ⟨rest, ?_⟩
      simp [pollLoop, h0, hrest, iterActs_succ]

/-- C1: the polling loop terminates on, and only on, a retrieval whose run
status is "completed" or "failed". If the first terminal status appears at
the `n`-th retrieve, then under any sufficient fuel bound the loop performs
exactly `n` iterations that only retrieve and sleep — no listing, no
display — before exiting at that first terminal retrieval; and under any
fuel bound, for any status oracle, the loop has exited only if some
retrieved status was terminal. -/
theorem claim_C1_poll_first_terminal (runId evalId : String)
    (st : Nat → String) (items : List OutputItem) (n : Nat)
    (hnt : ∀ m, m < n → isTerminal (st m) = false)
    (ht : isTerminal (st n) = true) :
    (∀ fuel, n < fuel →
      pollLoop runId evalId st items 0 fuel =
        (iterActs runId evalId n ++ exitActions runId evalId items,
         exitResult items) ∧
      ∀ a ∈ iterActs runId evalId n,
        a = Act.retrieve runId evalId ∨ a = Act.sleep 5) ∧
    (∀ (st2 : Nat → String) fuel,
      (pollLoop runId evalId st2 items 0 fuel).2 ≠ LoopResult.stillRunning →
      ∃ m, m < fuel ∧ isTerminal (st2 m) = true) := by
  constructor
  · intro fuel hf
    refine ⟨?_, fun a ha => iterActs_mem runId evalId n a ha⟩
    have h1 : ∀ m, m < n → isTerminal (st (0 + m)) = false := by
      intro m hm; rw [Nat.zero_add]; exact hnt m hm
    have h2 : isTerminal (st (0 + n)) = true := by rw [Nat.zero_add]; exact ht
    exact pollLoop_run runId evalId st items n 0 fuel h1 h2 hf
  · intro st2 fuel h
    obtain ⟨m, hm, htm⟩ := pollLoop_exit_terminal runId evalId st2 items fuel 0 h
    exact ⟨m, hm, by rw [← Nat.zero_add m]; exact htm⟩

/-- A status oracle that is "in_progress" twice and then "completed". -/
def stW : Nat → String := fun m => if m < 2 then "in_progress" else "completed"

theorem claim_C1_witness :
    (∀ m, m < 2 → isTerminal (stW m) = false) ∧ isTerminal (stW 2) = true ∧
    pollLoop "run_1" "eval_1" stW [] 0 3 =
      (iterActs "run_1" "eval_1" 2 ++ exitActions "run_1" "eval_1" [],
       exitResult []) :=
  ⟨by decide, by decide,
   ((claim_C1_poll_first_terminal "run_1" "eval_1" stW [] 2 (by decide)
      (by decide)).1 3 (by decide)).1⟩

/-- C3: the polling loop has no timeout and no cancellation: when no
retrieved status is ever "completed" or "failed", the loop never exits —
under every fuel bound it is still running, having performed one
retrieve-and-sleep iteration per retrieve. -/
theorem claim_C3_never_terminates (runId evalId : String)
    (st : Nat → String) (items : List OutputItem)
    (h : ∀ m, isTerminal (st m) = false) :
    ∀ fuel, pollLoop runId evalId st items 0 fuel =
      (iterActs runId evalId fuel, LoopResult.stillRunning) := by
  intro fuel
  exact pollLoop_all_nonterminal runId evalId st items fuel 0
    (fun m _ => by rw [Nat.zero_add]; exact h m)

/-- A status oracle that never reports a terminal status. -/
def stW3 : Nat → String := fun _ => "in_progress"

theorem claim_C3_witness :
    (∀ m, isTerminal (stW3 m) = false) ∧
    pollLoop "run_1" "eval_1" stW3 [] 0 4 =
      (iterActs "run_1" "eval_1" 4, LoopResult.stillRunning) :=
  ⟨fun _ => rfl, claim_C3_never_terminates "run_1" "eval_1" stW3 [] (fun _ => rfl) 4⟩

/-- C4: the polling interval is fixed with no backoff: while the observed
statuses are non-terminal, each iteration retrieves and then sleeps exactly
5 seconds before the next retrieve, and every sleep the loop ever performs
— for any statuses, start index and fuel — is 5 seconds. -/
theorem claim_C4_fixed_interval (runId evalId : String)
    (st : Nat → String) (items : List OutputItem) (n : Nat)
    (hnt : ∀ m, m < n → isTerminal (st m) = false) :
    (∀ fuel, n ≤ fuel → ∃ rest,
      (pollLoop runId evalId st items 0 fuel).1 =
        iterActs runId evalId n ++ rest) ∧
    (∀ (st2 : Nat → String) fuel i k,
      Act.sleep k ∈ (pollLoop runId evalId st2 items i fuel).1 → k = 5) := by
  constructor
  · intro fuel hf
    exact pollLoop_head_nonterminal runId evalId st items n 0 fuel
      (fun m hm => by rw [Nat.zero_add]; exact hnt m hm) hf
  · intro st2 fuel i k h
    exact pollLoop_sleep_five runId evalId st2 items fuel i k h

theorem claim_C4_witness :
    (∀ m, m < 2 → isTerminal (stW m) = false) ∧
    (∃ rest, (pollLoop "run_1" "eval_1" stW [] 0 4).1 =
      iterActs "run_1" "eval_1" 2 ++ rest) :=
  ⟨by decide,
   (claim_C4_fixed_interval "run_1" "eval_1" stW [] 2 (by decide)).1 4 (by decide)⟩

/-- C5: a run that ends "failed" is processed identically to one that ends
"completed": with the same status history before the terminal retrieve and
the same output items, the loop's whole behaviour — its trace, including
the output-item listing and DataFrame display, and its result — is the
same, with no retry and no distinct error branch. -/
theorem claim_C5_failed_like_completed (runId evalId : String)
    (st st2 : Nat → String) (items : List OutputItem) (n : Nat)
    (hpre : ∀ m, m < n → st m = st2 m)
    (hc : st n = "completed") (hf : st2 n = "failed") :
    ∀ fuel, pollLoop runId evalId st items 0 fuel =
      pollLoop runId evalId st2 items 0 fuel := by
  intro fuel
  exact pollLoop_congr runId evalId st st2 items n hpre
    (by rw [hc]; rfl) (by rw [hf]; rfl) fuel 0 (Nat.zero_le n)

/-- A status oracle ending "completed" after one pending status. -/
def stC5c : Nat → String := fun m => if m < 1 then "queued" else "completed"

/-- A status oracle ending "failed" after the same pending status. -/
def stC5f : Nat → String := fun m => if m < 1 then "queued" else "failed"

theorem claim_C5_witness :
    (∀ m, m < 1 → stC5c m = stC5f m) ∧ stC5c 1 = "completed" ∧
    stC5f 1 = "failed" ∧
    pollLoop "run_1" "eval_1" stC5c [] 0 3 =
      pollLoop "run_1" "eval_1" stC5f [] 0 3 :=
  ⟨by decide, rfl, rfl,
   claim_C5_failed_like_completed "run_1" "eval_1" stC5c stC5f [] 1
     (by decide) rfl rfl 3⟩

/-- C2: the notebook issues its API calls in a fixed sequence: first
`evals.create` with `data_source_config` and the grader, then `runs.create`
passing the created eval's id and the previously compiled data source,
then one status retrieve per iteration for the created run, and the
output-item listing and result display happen only after a terminal status
is observed — at which point they follow the first terminal retrieve
directly. -/
theorem claim_C2_call_sequence (api : Api) (test : List Example) (n : Nat)
    (hnt : ∀ m, m < n → isTerminal (api.statuses m) = false)
    (ht : isTerminal (api.statuses n) = true) :
    (∀ fuel, n < fuel →
      (notebook api test fuel).1 =
        Act.evalsCreate "Image Grading" data_source_config [grader_config] ::
        Act.runsCreate "Image Input Eval Run" api.evalId
          (run_data_source (evals_data_source test)) ::
        (iterActs api.runId api.evalId n ++
         exitActions api.runId api.evalId api.items)) ∧
    (∀ fuel runId2 evalId2,
      Act.listItems runId2 evalId2 ∈ (notebook api test fuel).1 →
      ∃ m, m < fuel ∧ isTerminal (api.statuses m) = true) := by
  constructor
  · intro fuel hf
    have h1 : ∀ m, m < n → isTerminal (api.statuses (0 + m)) = false := by
      intro m hm; rw [Nat.zero_add]; exact hnt m hm
    have h2 : isTerminal (api.statuses (0 + n)) = true := by
      rw [Nat.zero_add]; exact ht
    have := pollLoop_run api.runId api.evalId api.statuses api.items n 0 fuel h1 h2 hf
    simp [notebook, this]
  · intro fuel r2 e2 h
    simp only [notebook, List.mem_cons] at h
    rcases h with h | h | h
    · exact absurd h (by simp)
    · exact absurd h (by simp)
    · obtain ⟨m, hm, htm⟩ :=
        pollLoop_listItems_after_terminal api.runId api.evalId api.statuses
          api.items fuel 0 r2 e2 h
      exact ⟨m, hm, by rw [← Nat.zero_add m]; exact htm⟩

/-- A concrete output item whose every access in cell 27 succeeds. -/
def itemW : OutputItem :=
  ⟨[("prompt", Json.str "What is shown?"),
    ("media_url", Json.str "https://example.org/a.jpg"),
    ("reference", Json.str "A pizza.")],
   ⟨[⟨"A margherita pizza."⟩]⟩,
   [Json.obj [("name", Json.str "Score Model Grader"),
              ("sample", Json.obj
                [("output", Json.arr
                  [Json.obj [("role", Json.str "assistant"),
                             ("content", Json.str "score 1")]])])]]⟩

/-- A concrete API oracle for the witnesses. -/
def apiW : Api := ⟨"eval_1", "run_1", stW, [itemW]⟩

/-- Three concrete test examples for the witnesses. -/
def testW : List Example :=
  [⟨"https://example.org/a.jpg", "A pizza.", "What is shown?"⟩,
   ⟨"https://example.org/b.jpg", "A table.", "Give latex."⟩,
   ⟨"https://example.org/c.jpg", "A curry.", "Is it vegan?"⟩]

theorem claim_C2_witness :
    (∀ m, m < 2 → isTerminal (apiW.statuses m) = false) ∧
    isTerminal (apiW.statuses 2) = true ∧
    (notebook apiW testW 3).1 =
      Act.evalsCreate "Image Grading" data_source_config [grader_config] ::
      Act.runsCreate "Image Input Eval Run" apiW.evalId
        (run_data_source (evals_data_source testW)) ::
      (iterActs apiW.runId apiW.evalId 2 ++
       exitActions apiW.runId apiW.evalId apiW.items) :=
  ⟨by decide, by decide,
   (claim_C2_call_sequence apiW testW 2 (by decide) (by decide)).1 3 (by decide)⟩

/-- C7: when the test split has at least 3 examples, `evals_data_source`
has exactly 3 elements; the `i`-th wraps exactly the keys `media_url`,
`reference` and `prompt` of the `i`-th example, in split order, under
`"item"`; each element's item satisfies `item_schema`; and the schema
inside `data_source_config` requires exactly those three keys. -/
theorem claim_C7_data_source_items (test : List Example)
    (h : 3 ≤ test.length) :
    (evals_data_source test).length = 3 ∧
    (∀ i, (hi : i < 3) → (htl : i < test.length) →
      (evals_data_source test).get? i =
        some (Json.obj [("item", Json.obj
          [("media_url", Json.str (test.get ⟨i, htl⟩).media_url),
           ("reference", Json.str (test.get ⟨i, htl⟩).reference),
           ("prompt", Json.str (test.get ⟨i, htl⟩).prompt)])])) ∧
    (∀ j ∈ evals_data_source test, ∃ d,
      jGet j "item" = some d ∧ satisfiesSchema item_schema d = true) ∧
    jGet data_source_config "item_schema" = some item_schema ∧
    requiredKeys item_schema = ["media_url", "reference", "prompt"] := by
  refine ⟨?_, ?_, ?_, rfl, rfl⟩
  · simp only [evals_data_source, List.length_map, List.length_take]
    omega
  · intro i hi htl
    simp only [evals_data_source, List.get?_map, List.get?_take hi,
      List.get?_eq_get htl, Option.map_some']
  · intro j hj
    simp only [evals_data_source, List.mem_map] at hj
    obtain ⟨e, _, rfl⟩ := hj
    exact ⟨_, rfl, rfl⟩

theorem claim_C7_witness :
    3 ≤ testW.length ∧ (evals_data_source testW).length = 3 :=
  ⟨by decide, (claim_C7_data_source_items testW (by decide)).1⟩

/-- A successfully built row records exactly the four per-item accesses of
cell 27. -/
lemma buildRow_fields (item : OutputItem) (r : Row)
    (h : buildRow item = some r) :
    dsGet item.datasource_item "prompt" = some r.prompt ∧
    dsGet item.datasource_item "reference" = some r.reference ∧
    (∃ m0, item.sample.output.get? 0 = some m0 ∧
      r.model_response = m0.content) ∧
    (∃ r0, item.results.get? 0 = some r0 ∧
      gradingResult r0 = some r.grading_results) := by
  simp only [buildRow, Option.bind_eq_some, Option.map_eq_some'] at h
  obtain ⟨p, hp, rr, hr, m0, hm, r0, hres, g, hg, hrow⟩ := h
  subst hrow
  exact ⟨hp, hr, ⟨m0, hm, rfl⟩, ⟨r0, hres, hg⟩⟩

/-- An output item with an empty `sample.output` or an empty `results`
list makes the row construction raise. -/
lemma buildRow_none_of_empty (item : OutputItem)
    (h : item.sample.output = [] ∨ item.results = []) :
    buildRow item = none := by
  rcases h with h | h <;>
  · simp only [buildRow, h, List.get?_nil, Option.none_bind, Option.bind_eq_none]
    intro b a
    cases dsGet item.datasource_item "prompt" <;>
      cases dsGet item.datasource_item "reference" <;>
        cases item.sample.output.get? 0 <;> simp [h]

/-- A successful DataFrame construction has one row per item, in order,
each row built from its item. -/
lemma buildDF_get? (items : List OutputItem) :
    ∀ rows, buildDF items = some rows →
      rows.length = items.length ∧
      ∀ i item, items.get? i = some item →
        ∃ row, rows.get? i = some row ∧ buildRow item = some row := by
  induction items with
  | nil =>
    intro rows h
    obtain rfl : rows = [] := by simpa [buildDF] using h.symm
    exact ⟨rfl, fun i item hi => by simp at hi⟩
  | cons item0 rest ih =>
    intro rows h
    unfold buildDF at h
    cases hbr : buildRow item0 <;> rw [hbr] at h
    · exact absurd h (by simp)
    cases hbd : buildDF rest <;> rw [hbd] at h
    · exact absurd h (by simp)
    obtain rfl : _ = rows := by simpa using h
    obtain ⟨hlen, hidx⟩ := ih _ hbd
    refine ⟨by simp [hlen], ?_⟩
    intro i item hi
    cases i with
    | zero =>
      obtain rfl : item0 = item := by simpa using hi
      exact ⟨_, rfl, hbr⟩
    | succ i =>
      exact hidx i item (by simpa using hi)

/-- The DataFrame construction raises whenever some output item has an
empty `sample.output` or an empty `results` list. -/
lemma buildDF_none_of_bad (items : List OutputItem)
    (h : ∃ item ∈ items, item.sample.output = [] ∨ item.results = []) :
    buildDF items = none := by
  induction items with
  | nil => simp at h
  | cons item0 rest ih =>
    obtain ⟨item, hmem, hbad⟩ := h
    rcases List.mem_cons.mp hmem with rfl | hmem'
    · have := buildRow_none_of_empty item hbad
      cases hbd : buildDF rest <;> simp [buildDF, this, hbd]
    · have := ih ⟨item, hmem', hbad⟩
      cases hbr : buildRow item0 <;> simp [buildDF, this, hbr]

/-- C8: when a terminal status is observed and the DataFrame construction
succeeds, it is what the loop displays, and it has exactly one row per
returned output item, in list order, with `prompt` and `reference` taken
from the item's `datasource_item`, `model_response` from
`sample.output[0].content`, and `grading_results` from
`results[0]["sample"]["output"][0]["content"]`. The construction
presupposes every item has a non-empty `sample.output` and non-empty
`results`, and raises whenever some item does not. -/
theorem claim_C8_dataframe (items : List OutputItem) (rows : List Row)
    (h : buildDF items = some rows) :
    exitResult items = LoopResult.displayed rows ∧
    rows.length = items.length ∧
    (∀ i item, items.get? i = some item →
      ∃ row, rows.get? i = some row ∧
        dsGet item.datasource_item "prompt" = some row.prompt ∧
        dsGet item.datasource_item "reference" = some row.reference ∧
        (∃ m0, item.sample.output.get? 0 = some m0 ∧
          row.model_response = m0.content) ∧
        (∃ r0, item.results.get? 0 = some r0 ∧
          gradingResult r0 = some row.grading_results)) ∧
    (∀ item ∈ items, item.sample.output ≠ [] ∧ item.results ≠ []) ∧
    (∀ items2 : List OutputItem,
      (∃ item ∈ items2, item.sample.output = [] ∨ item.results = []) →
      buildDF items2 = none) := by
  obtain ⟨hlen, hidx⟩ := buildDF_get? items rows h
  refine ⟨by simp [exitResult, h], hlen, ?_, ?_, buildDF_none_of_bad⟩
  · intro i item hi
    obtain ⟨row, hrow, hbr⟩ := hidx i item hi
    obtain ⟨hp, hr, hm, hg⟩ := buildRow_fields item row hbr
    exact ⟨row, hrow, hp, hr, hm, hg⟩
  · intro item hmem
    constructor <;> intro hemp
    · obtain ⟨i, hi⟩ := List.get?_of_mem hmem
      obtain ⟨row, _, hbr⟩ := hidx i item hi
      rw [buildRow_none_of_empty item (Or.inl hemp)] at hbr
      exact absurd hbr (by simp)
    · obtain ⟨i, hi⟩ := List.get?_of_mem hmem
      obtain ⟨row, _, hbr⟩ := hidx i item hi
      rw [buildRow_none_of_empty item (Or.inr hemp)] at hbr
      exact absurd hbr (by simp)

/-- The row built from `itemW`. -/
def rowW : Row :=
  ⟨Json.str "What is shown?", Json.str "A pizza.",
   "A margherita pizza.", Json.str "score 1"⟩

theorem claim_C8_witness :
    buildDF [itemW] = some [rowW] ∧ [rowW].length = [itemW].length :=
  ⟨rfl, (claim_C8_dataframe [itemW] [rowW] rfl).2.1⟩

/-- `mapJsonList` is `List.map` of `mapJsonVals`. -/
lemma mapJsonList_eq (f : String → String) :
    ∀ xs : List Json, mapJsonList f xs = xs.map (mapJsonVals f) := by
  intro xs
  induction xs with
  | nil => simp [mapJsonList]
  | cons x xs ih => simp [mapJsonList, ih]

/-- Key-based search commutes with a value rewrite, since keys are
untouched. -/
lemma find?_key_map (f : String → String) (k : String) :
    ∀ ds : List (String × Json),
      (mapJsonObj f ds).find? (fun kv => kv.1 == k) =
        (ds.find? (fun kv => kv.1 == k)).map
          (fun kv => (kv.1, mapJsonVals f kv.2)) := by
  intro ds
  induction ds with
  | nil => simp [mapJsonObj]
  | cons kv rest ih =>
    by_cases h : (kv.1 == k) = true
    · simp [mapJsonObj, List.find?_cons, h]
    · have h' : (kv.1 == k) = false := by simpa using h
      simp [mapJsonObj, List.find?_cons, h', ih]

/-- Dictionary lookup in a `datasource_item` commutes with a value
rewrite. -/
lemma dsGet_mapJsonObj (f : String → String) (ds : List (String × Json))
    (k : String) :
    dsGet (mapJsonObj f ds) k = (dsGet ds k).map (mapJsonVals f) := by
  unfold dsGet
  rw [find?_key_map]
  cases ds.find? (fun kv => kv.1 == k) <;> simp

/-- JSON dictionary lookup commutes with a value rewrite. -/
lemma jGet_map (f : String → String) (j : Json) (k : String) :
    jGet (mapJsonVals f j) k = (jGet j k).map (mapJsonVals f) := by
  cases j <;> simp only [mapJsonVals, jGet]
  · rfl
  · rfl
  · rfl
  · rfl
  · rfl
  · rw [find?_key_map]
    cases hfind : List.find? _ _ <;> simp_all

/-- JSON array indexing commutes with a value rewrite. -/
lemma jIdx_map (f : String → String) (j : Json) (n : Nat) :
    jIdx (mapJsonVals f j) n = (jIdx j n).map (mapJsonVals f) := by
  cases j <;> simp only [mapJsonVals, jIdx]
  · rfl
  · rfl
  · rfl
  · rfl
  · rw [mapJsonList_eq, List.get?_map]
  · rfl

/-- The grading-results access path commutes with a value rewrite. -/
lemma gradingResult_map (f : String → String) (r : Json) :
    gradingResult (mapJsonVals f r) = (gradingResult r).map (mapJsonVals f) := by
  unfold gradingResult
  rw [jGet_map]
  cases jGet r "sample" with
  | none => rfl
  | some s =>
    simp only [Option.map_some', Option.some_bind]
    rw [jGet_map]
    cases jGet s "output" with
    | none => rfl
    | some o =>
      simp only [Option.map_some', Option.some_bind]
      rw [jIdx_map]
      cases jIdx o 0 with
      | none => rfl
      | some e =>
        simp only [Option.map_some', Option.some_bind]
        rw [jGet_map]

/-- Building a row commutes with rewriting every string value of the
item. -/
lemma buildRow_map (f : String → String) (item : OutputItem) :
    buildRow (outputItemMapVals f item) =
      (buildRow item).map (rowMapVals f) := by
  unfold buildRow outputItemMapVals
  simp only [dsGet_mapJsonObj, List.get?_map]
  cases hp : dsGet item.datasource_item "prompt" with
  | none => simp
  | some p =>
    simp only [Option.map_some', Option.some_bind]
    cases hr : dsGet item.datasource_item "reference" with
    | none => simp
    | some rr =>
      simp only [Option.map_some', Option.some_bind]
      cases hm : item.sample.output.get? 0 with
      | none => simp
      | some m0 =>
        simp only [Option.map_some', Option.some_bind]
        cases hres : item.results.get? 0 with
        | none => simp
        | some r0 =>
          simp only [Option.map_some', Option.some_bind]
          rw [gradingResult_map]
          cases hg : gradingResult r0 with
          | none => simp
          | some g => simp [rowMapVals]

/-- Building the whole DataFrame commutes with rewriting every string
value of every item. -/
lemma buildDF_map (f : String → String) :
    ∀ items : List OutputItem,
      buildDF (items.map (outputItemMapVals f)) =
        (buildDF items).map (List.map (rowMapVals f)) := by
  intro items
  induction items with
  | nil => rfl
  | cons item rest ih =>
    simp only [List.map_cons, buildDF, buildRow_map, ih]
    cases buildRow item <;> cases buildDF rest <;> simp

/-- C6: the notebook defines and enforces no invariant over the external
API's entities. Compiling the request data source is pure serialization:
it commutes with every rewrite of the examples' string values, so no value
is inspected or constrained. Deserializing the response for display is
equally indifferent: rewriting every string value in the output items
never changes whether the display construction succeeds — only the JSON
structure is consulted. -/
theorem claim_C6_no_invariant_enforced (f : String → String)
    (test : List Example) (items : List OutputItem) :
    evals_data_source
        (test.map (fun e => ⟨f e.media_url, f e.reference, f e.prompt⟩)) =
      (evals_data_source test).map (mapJsonVals f) ∧
    (buildDF (items.map (outputItemMapVals f))).isSome =
      (buildDF items).isSome := by
  constructor
  · unfold evals_data_source
    simp only [List.map_take, List.map_map]
    exact congrArg (List.take 3) (List.map_congr_left
      (fun e _ => by simp [Function.comp, mapJsonVals, mapJsonObj]))
  · rw [buildDF_map]
    cases buildDF items <;> simp

/-- The logs loop prints exactly the outputs whose type is "logs". -/
lemma printLogsLoop_eq_filter (outs : List CIOutput) :
    printLogsLoop outs =
      (outs.filter (fun o => o.type == "logs")).map
        (fun o => "\n" ++ o.logs ++ "\n") := by
  induction outs with
  | nil => rfl
  | cons o rest ih =>
    by_cases h : (o.type == "logs") = true
    · simp [printLogsLoop, List.filter_cons, h, ih]
    · have h' : (o.type == "logs") = false := by simpa using h
      simp [printLogsLoop, List.filter_cons, h', ih]

/-- C9: `on_tool_call_delta` writes nothing for a delta whose type is not
"code_interpreter"; for a "code_interpreter" delta it writes the delta's
`code_interpreter.input` exactly when that field is truthy, and — after a
header printed when the outputs list is truthy — the logs of exactly those
outputs whose type equals "logs", in order, skipping all other output
types. -/
theorem claim_C9_tool_call_delta_output (delta : ToolCallDelta) :
    on_tool_call_delta delta =
      if delta.type == "code_interpreter" then
        (if pyTruthyStr delta.code_interpreter.input then
           [delta.code_interpreter.input.getD ""]
         else []) ++
        (if pyTruthyList delta.code_interpreter.outputs then
           "\n\noutput >\n" ::
             ((delta.code_interpreter.outputs.getD []).filter
                 (fun o => o.type == "logs")).map
               (fun o => "\n" ++ o.logs ++ "\n")
         else [])
      else [] := by
  unfold on_tool_call_delta
  by_cases hT : (delta.type == "code_interpreter") = true
  · simp only [hT, if_true]
    congr 1
    · cases hin : delta.code_interpreter.input with
      | none => rfl
      | some s =>
        by_cases hs : (s == "") = true
        · have : s = "" := by simpa using hs
          simp [pyTruthyStr, this]
        · have hs' : (s == "") = false := by simpa using hs
          simp [pyTruthyStr, hs']
    · cases hout : delta.code_interpreter.outputs with
      | none => rfl
      | some outs =>
        by_cases he : outs.isEmpty = true
        · simp [pyTruthyList, he]
        · have he' : outs.isEmpty = false := by simpa using he
          simp [pyTruthyList, he', printLogsLoop_eq_filter]
  · have hT' : (delta.type == "code_interpreter") = false := by simpa using hT
    simp [hT']
